import Mathlib

/-!
Verification development for the cluster cost-aggregation engine
(`costmodel/cluster.go` of krackjack29/cost-model).

The Go source is shallowly embedded below.  Go `float64` sample scalars are
modelled by an abstract type `F` together with an abstract rendering function
`fmtF : F → String` standing for `fmt.Sprintf("%f", ·)`; the claims under
study never depend on floating-point arithmetic, only on where samples are
routed and how the surrounding strings are assembled.  Go maps built by the
code are modelled as association lists in insertion order (Go map iteration
order is unspecified; the claims only concern per-key content).  The external
collaborators (metrics backend, cloud provider, `time.Parse`,
`time.ParseDuration`) are fields of an explicit environment `Env`, and every
collaborator call a function performs is recorded in an explicit trace of
`CallEvent`s.  `klog` output of the series loop is modelled as a returned
list of `LogEvent`s (verbosity level plus message); debug-level query logging
in the top-level drivers is not modelled.
-/

namespace CostModel

set_option maxRecDepth 10000

/-- One parsed sample of a series: `(timestamp, value)`, both Go `float64`,
here drawn from the abstract scalar type `F`. -/
structure Sample (F : Type) where
  Timestamp : F
  Value : F
deriving DecidableEq

/-- One parsed series of a backend query result: a label set plus the
ordered samples.  Mirrors the repository's `QueryResult` consumed by
`resultToTotal`/`resultToTotals`. -/
structure QueryResult (F : Type) where
  labels : List (String × String)
  Values : List (Sample F)
deriving DecidableEq

/-- Modelled from the spec: `QueryResult.GetString` lives outside `src/`
(only its callers are in `src/costmodel/cluster.go`).  Per §4.2 the parser
extracts labels verbatim and preserves empty-string absence for the reserved
cluster-identifier label rather than coercing it to a sentinel, so an absent
key yields the empty string together with a failure flag (the Go callers
discard the flag). -/
def QueryResult.GetString {F : Type} (r : QueryResult F) (field : String) : String × Bool :=
  match r.labels.lookup field with
  | some v => (v, true)
  | none => ("", false)

/-- A raw backend response as handed to `resultToTotal`/`resultToTotals`
(the `qr interface{}` argument): either a well-formed list of series or a
malformed payload. -/
inductive QueryResponse (F : Type) where
  | ok (results : List (QueryResult F))
  | malformed (msg : String)
deriving DecidableEq

/-- Modelled from the spec: `NewQueryResults` (the Query Result Parser, §4.2)
is repository code outside `src/`.  Per the spec it normalizes a well-formed
envelope into the series list and fails with a `ParseError` describing the
malformed payload otherwise; the parser receives only the raw response, so
its error does not mention any query text. -/
def NewQueryResults {F : Type} : QueryResponse F → Except String (List (QueryResult F))
  | .ok results => .ok results
  | .malformed msg => .error msg

/-- One `klog` emission: the `klog.V(n)` verbosity level and the message. -/
structure LogEvent where
  verbosity : Nat
  msg : String
deriving DecidableEq

/-- The warning logged by `resultToTotal` when a series has no samples
(cluster.go:84). -/
def warnNoValidData : LogEvent :=
  ⟨1, "[Warning] Metric values did not contain any valid data."⟩

/-- Go `[][]string`, a list of `[timestamp, value]` pairs. -/
abbrev Pairs := List (List String)

/-- Go `map[string][][]string` built by `resultToTotal`, modelled as an
association list in insertion order. -/
abbrev TotalsMap := List (String × Pairs)

/-- The cluster identifier under which `resultToTotal` buckets a series
(cluster.go:77-80): the `cluster_id` label's value, or the default
identifier when the label is absent or empty. -/
def effClusterID {F : Type} (defaultClusterID : String) (result : QueryResult F) : String :=
  let c := (result.GetString "cluster_id").1
  if c = "" then defaultClusterID else c

/-- The map update of `resultToTotal`'s loop (cluster.go:95-99).  In the Go
source the `ok` branch runs `t = append(t, toAppend)` where `t` is a local
copy of the slice header read from the map; the appended slice is never
stored back, so the map entry is left unchanged.  The `else` branch stores a
fresh one-element list. -/
def insertTotal (m : TotalsMap) (clusterID : String) (toAppend : List String) : TotalsMap :=
  match m.lookup clusterID with
  | some _ => m
  | none => m ++ [(clusterID, [toAppend])]

/-- One iteration of `resultToTotal`'s series loop (cluster.go:76-100),
threading the log list and the destination map. -/
def resultToTotalStep {F : Type} (fmtF : F → String) (defaultClusterID : String)
    (acc : List LogEvent × TotalsMap) (result : QueryResult F) : List LogEvent × TotalsMap :=
  let clusterID := effClusterID defaultClusterID result
  match result.Values with
  | [] => (acc.1 ++ [warnNoValidData], acc.2)
  | value :: _ =>
      let d0 := fmtF value.Timestamp
      let d1 := fmtF value.Value
      (acc.1, insertTotal acc.2 clusterID [d0, d1])

/-- `resultToTotal` (cluster.go:67-103): parse the response, then bucket the
first sample of each series by cluster identifier.  `defaultClusterID`
stands for the `os.Getenv(clusterIDKey)` read at the top of the function;
the returned log list models the `klog` warnings. -/
def resultToTotal {F : Type} (fmtF : F → String) (defaultClusterID : String)
    (qr : QueryResponse F) : Except String (List LogEvent × TotalsMap) :=
  match NewQueryResults qr with
  | .error err => .error err
  | .ok results => .ok (results.foldl (resultToTotalStep fmtF defaultClusterID) ([], []))

/-- `resultToTotals` (cluster.go:43-65): parse the response, fail when no
series came back, otherwise keep every sample of `results[0]` in order. -/
def resultToTotals {F : Type} (fmtF : F → String) (qr : QueryResponse F) :
    Except String Pairs :=
  match NewQueryResults qr with
  | .error err => .error err
  | .ok [] => .error "Not enough data available in the selected time range"
  | .ok (result :: _) =>
      .ok (result.Values.map (fun value => [fmtF value.Timestamp, fmtF value.Value]))

/-- Model of `fmt.Sprintf` restricted to the `%s` verb, the only verb the
query templates use.  (The missing-argument case cannot arise in this file:
every call below supplies exactly as many arguments as the template has
verbs.) -/
def sprintfChars : List Char → List String → List Char
  | [], _ => []
  | '%' :: 's' :: rest, arg :: args => arg.data ++ sprintfChars rest args
  | c :: rest, args => c :: sprintfChars rest args

/-- `fmt.Sprintf` on a `%s`-only format string. -/
def sprintfGo (format : String) (args : List String) : String :=
  ⟨sprintfChars format.data args⟩

/-- The `queryClusterCores` template constant (cluster.go:15-18), verbatim. -/
def queryClusterCores : String :=
  "sum(\n\t\tavg(avg_over_time(kube_node_status_capacity_cpu_cores[%s] %s)) by (node, cluster_id) * avg(avg_over_time(node_cpu_hourly_cost[%s] %s)) by (node, cluster_id) * 730 +\n\t\tavg(avg_over_time(node_gpu_hourly_cost[%s] %s)) by (node, cluster_id) * 730\n\t  ) by (cluster_id)"

/-- The `queryClusterRAM` template constant (cluster.go:20-22), verbatim. -/
def queryClusterRAM : String :=
  "sum(\n\t\tavg(avg_over_time(kube_node_status_capacity_memory_bytes[%s] %s)) by (node, cluster_id) / 1024 / 1024 / 1024 * avg(avg_over_time(node_ram_hourly_cost[%s] %s)) by (node, cluster_id) * 730\n\t  ) by (cluster_id)"

/-- The `queryStorage` template constant (cluster.go:24-27), verbatim. -/
def queryStorage : String :=
  "sum(\n\t\tavg(avg_over_time(pv_hourly_cost[%s] %s)) by (persistentvolume, cluster_id) * 730 \n\t\t* avg(avg_over_time(kube_persistentvolume_capacity_bytes[%s] %s)) by (persistentvolume, cluster_id) / 1024 / 1024 / 1024\n\t  ) by (cluster_id) %s"

/-- The `queryTotal` template constant (cluster.go:29-33), verbatim.  Note
the hard-coded `[1h]` ranges and the single `%s` verb (the local-storage
fragment): this template has no window or offset substitution site. -/
def queryTotal : String :=
  "sum(avg(node_total_hourly_cost) by (node, cluster_id)) * 730 +\n\t  sum(\n\t\tavg(avg_over_time(pv_hourly_cost[1h])) by (persistentvolume, cluster_id) * 730 \n\t\t* avg(avg_over_time(kube_persistentvolume_capacity_bytes[1h])) by (persistentvolume, cluster_id) / 1024 / 1024 / 1024\n\t  ) by (cluster_id) %s"

/-- `fmt.Sprintf(queryClusterCores, w, o, w, o, w, o)` as performed at
cluster.go:120/194/282. -/
def qCoresOf (windowString offset : String) : String :=
  sprintfGo queryClusterCores [windowString, offset, windowString, offset, windowString, offset]

/-- `fmt.Sprintf(queryClusterRAM, w, o, w, o)` as performed at
cluster.go:121/195/283. -/
def qRAMOf (windowString offset : String) : String :=
  sprintfGo queryClusterRAM [windowString, offset, windowString, offset]

/-- `fmt.Sprintf(queryStorage, w, o, w, o, lsq)` as performed at
cluster.go:122/196/284. -/
def qStorageOf (windowString offset localStorageQuery : String) : String :=
  sprintfGo queryStorage [windowString, offset, windowString, offset, localStorageQuery]

/-- `fmt.Sprintf(queryTotal, lsq)` as performed at cluster.go:197/285. -/
def qTotalOf (localStorageQuery : String) : String :=
  sprintfGo queryTotal [localStorageQuery]

/-- The external collaborators of the aggregator, read at their interface
boundary (§6 of the spec): the process environment's default cluster
identifier, the cloud provider, the metrics backend in instant and range
mode, and the Go time/duration parsers.  `T` and `D` are the abstract types
of parsed `time.Time` and `time.Duration` values. -/
structure Env (F T D : Type) where
  clusterIDEnv : String
  getLocalStorageQuery : String → Except String String
  backendInstant : String → Except String (QueryResponse F)
  backendRange : String → T → T → D → Except String (QueryResponse F)
  parseTime : String → Except String T
  parseDuration : String → Except String D
  fmtF : F → String

/-- One collaborator call performed by a top-level entry point, in order. -/
inductive CallEvent (T D : Type) where
  | localStorage (offsetArg : String)
  | instant (query : String)
  | range (query : String) (start stop : T) (step : D)
deriving DecidableEq

/-- True exactly on metrics-backend calls (instant or range queries);
`localStorage` is the cloud-provider collaborator, not the backend. -/
def CallEvent.isBackend {T D : Type} : CallEvent T D → Bool
  | .localStorage _ => false
  | .instant _ => true
  | .range _ _ _ _ => true

/-- Modelled from the spec: `Query` (the instant-mode Query Executor
Adapter, §4.3) is repository code outside `src/`.  Per the spec it fails
"with `ExecutionError` wrapping the backend's error and the offending query
text". -/
def Query {F T D : Type} (env : Env F T D) (q : String) : Except String (QueryResponse F) :=
  match env.backendInstant q with
  | .error e => .error ("ExecutionError for query " ++ q ++ ": " ++ e)
  | .ok r => .ok r

/-- Modelled from the spec: `QueryRange` (the range-mode Query Executor
Adapter, §4.3) is repository code outside `src/`.  Like `Query`, it wraps
the backend's error together with the offending query text. -/
def QueryRange {F T D : Type} (env : Env F T D) (q : String) (start stop : T) (step : D) :
    Except String (QueryResponse F) :=
  match env.backendRange q start stop step with
  | .error e => .error ("ExecutionError for query " ++ q ++ ": " ++ e)
  | .ok r => .ok r

/-- The output aggregate `Totals` (cluster.go:36-41).  Go's zero value has
nil slices, modelled as empty lists. -/
structure Totals where
  TotalCost : Pairs
  CPUCost : Pairs
  MemCost : Pairs
  StorageCost : Pairs
deriving DecidableEq

/-- Update-or-append on the outgoing `map[string]*Totals`, modelled as an
association list. -/
def mapSet (m : List (String × Totals)) (k : String) (t : Totals) : List (String × Totals) :=
  match m with
  | [] => [(k, t)]
  | (k', t') :: rest => if k' = k then (k', t) :: rest else (k', t') :: mapSet rest k t

/-- One merge loop of `ClusterCostsForAllClusters`
(`for clusterID, total := range dim { ... }`, cluster.go:146-151 and
analogues): ensure the entry exists (`&Totals{}` on first sight) and set the
dimension's field on it.  Go iterates the intermediate map in unspecified
order; the model iterates the association list in its insertion order, one
admissible order. -/
def applyDim (setField : Totals → Pairs → Totals)
    (toReturn : List (String × Totals)) (dim : TotalsMap) : List (String × Totals) :=
  dim.foldl (fun acc kv =>
    let existing := (acc.lookup kv.1).getD ⟨[], [], [], []⟩
    mapSet acc kv.1 (setField existing kv.2)) toReturn

/-- `ClusterCostsForAllClusters` (cluster.go:106-176).  Returns the trace of
collaborator calls together with the Go return value. -/
def ClusterCostsForAllClusters {F T D : Type} (env : Env F T D)
    (windowString offsetInput : String) :
    List (CallEvent T D) × Except String (List (String × Totals)) :=
  let offset := if offsetInput ≠ "" then "offset " ++ offsetInput else offsetInput
  let trace0 : List (CallEvent T D) := [.localStorage offset]
  match env.getLocalStorageQuery offset with
  | .error e => (trace0, .error e)
  | .ok lsq =>
    let localStorageQuery := if lsq ≠ "" then "+ " ++ lsq else lsq
    let qCores := qCoresOf windowString offset
    let qRAM := qRAMOf windowString offset
    let qStorage := qStorageOf windowString offset localStorageQuery
    let trace1 := trace0 ++ [.instant qCores]
    match Query env qCores with
    | .error e => (trace1, .error ("Error for query " ++ qCores ++ ": " ++ e))
    | .ok resultClusterCores =>
      let trace2 := trace1 ++ [.instant qRAM]
      match Query env qRAM with
      | .error e => (trace2, .error ("Error for query " ++ qRAM ++ ": " ++ e))
      | .ok resultClusterRAM =>
        let trace3 := trace2 ++ [.instant qStorage]
        match Query env qStorage with
        | .error e => (trace3, .error ("Error for query " ++ qStorage ++ ": " ++ e))
        | .ok resultStorage =>
          match resultToTotal env.fmtF env.clusterIDEnv resultClusterCores with
          | .error e => (trace3, .error ("Error for query " ++ qCores ++ ": " ++ e))
          | .ok (_, coreTotal) =>
            match resultToTotal env.fmtF env.clusterIDEnv resultClusterRAM with
            | .error e => (trace3, .error ("Error for query " ++ qRAM ++ ": " ++ e))
            | .ok (_, ramTotal) =>
              match resultToTotal env.fmtF env.clusterIDEnv resultStorage with
              | .error e => (trace3, .error ("Error for query " ++ qStorage ++ ": " ++ e))
              | .ok (_, storageTotal) =>
                let m1 := applyDim (fun t v => { t with CPUCost := v }) [] coreTotal
                let m2 := applyDim (fun t v => { t with MemCost := v }) m1 ramTotal
                let m3 := applyDim (fun t v => { t with StorageCost := v }) m2 storageTotal
                (trace3, .ok m3)

/-- `ClusterCosts` (cluster.go:179-246).  Returns the trace of collaborator
calls together with the Go return value. -/
def ClusterCosts {F T D : Type} (env : Env F T D) (windowString offsetInput : String) :
    List (CallEvent T D) × Except String Totals :=
  let offset := if offsetInput ≠ "" then "offset " ++ offsetInput else offsetInput
  let trace0 : List (CallEvent T D) := [.localStorage offset]
  match env.getLocalStorageQuery offset with
  | .error e => (trace0, .error e)
  | .ok lsq =>
    let localStorageQuery := if lsq ≠ "" then "+ " ++ lsq else lsq
    let qCores := qCoresOf windowString offset
    let qRAM := qRAMOf windowString offset
    let qStorage := qStorageOf windowString offset localStorageQuery
    let qTotal := qTotalOf localStorageQuery
    let trace1 := trace0 ++ [.instant qCores]
    match Query env qCores with
    | .error e => (trace1, .error e)
    | .ok resultClusterCores =>
      let trace2 := trace1 ++ [.instant qRAM]
      match Query env qRAM with
      | .error e => (trace2, .error e)
      | .ok resultClusterRAM =>
        let trace3 := trace2 ++ [.instant qStorage]
        match Query env qStorage with
        | .error e => (trace3, .error e)
        | .ok resultStorage =>
          let trace4 := trace3 ++ [.instant qTotal]
          match Query env qTotal with
          | .error e => (trace4, .error e)
          | .ok resultTotal =>
            match resultToTotal env.fmtF env.clusterIDEnv resultClusterCores with
            | .error e => (trace4, .error e)
            | .ok (_, coreTotal) =>
              match resultToTotal env.fmtF env.clusterIDEnv resultClusterRAM with
              | .error e => (trace4, .error e)
              | .ok (_, ramTotal) =>
                match resultToTotal env.fmtF env.clusterIDEnv resultStorage with
                | .error e => (trace4, .error e)
                | .ok (_, storageTotal) =>
                  match resultToTotal env.fmtF env.clusterIDEnv resultTotal with
                  | .error e => (trace4, .error e)
                  | .ok (_, clusterTotal) =>
                    let defaultClusterID := env.clusterIDEnv
                    (trace4, .ok {
                      TotalCost := (clusterTotal.lookup defaultClusterID).getD []
                      CPUCost := (coreTotal.lookup defaultClusterID).getD []
                      MemCost := (ramTotal.lookup defaultClusterID).getD []
                      StorageCost := (storageTotal.lookup defaultClusterID).getD [] })

/-- `ClusterCostsOverTime` (cluster.go:249-333).  Returns the trace of
collaborator calls together with the Go return value.  Note the source calls
`GetLocalStorageQuery` with the raw offset before parsing the times, and
rewrites the offset only afterwards (cluster.go:251, 278-280). -/
def ClusterCostsOverTime {F T D : Type} (env : Env F T D)
    (startString endString windowString offsetInput : String) :
    List (CallEvent T D) × Except String Totals :=
  let trace0 : List (CallEvent T D) := [.localStorage offsetInput]
  match env.getLocalStorageQuery offsetInput with
  | .error e => (trace0, .error e)
  | .ok lsq =>
    let localStorageQuery := if lsq ≠ "" then "+ " ++ lsq else lsq
    match env.parseTime startString with
    | .error e => (trace0, .error e)
    | .ok start =>
      match env.parseTime endString with
      | .error e => (trace0, .error e)
      | .ok stop =>
        match env.parseDuration windowString with
        | .error e => (trace0, .error e)
        | .ok window =>
          let offset := if offsetInput ≠ "" then "offset " ++ offsetInput else offsetInput
          let qCores := qCoresOf windowString offset
          let qRAM := qRAMOf windowString offset
          let qStorage := qStorageOf windowString offset localStorageQuery
          let qTotal := qTotalOf localStorageQuery
          let trace1 := trace0 ++ [.range qCores start stop window]
          match QueryRange env qCores start stop window with
          | .error e => (trace1, .error e)
          | .ok resultClusterCores =>
            let trace2 := trace1 ++ [.range qRAM start stop window]
            match QueryRange env qRAM start stop window with
            | .error e => (trace2, .error e)
            | .ok resultClusterRAM =>
              let trace3 := trace2 ++ [.range qStorage start stop window]
              match QueryRange env qStorage start stop window with
              | .error e => (trace3, .error e)
              | .ok resultStorage =>
                let trace4 := trace3 ++ [.range qTotal start stop window]
                match QueryRange env qTotal start stop window with
                | .error e => (trace4, .error e)
                | .ok resultTotal =>
                  match resultToTotals env.fmtF resultClusterCores with
                  | .error e => (trace4, .error e)
                  | .ok coreTotal =>
                    match resultToTotals env.fmtF resultClusterRAM with
                    | .error e => (trace4, .error e)
                    | .ok ramTotal =>
                      match resultToTotals env.fmtF resultStorage with
                      | .error e => (trace4, .error e)
                      | .ok storageTotal =>
                        match resultToTotals env.fmtF resultTotal with
                        | .error e => (trace4, .error e)
                        | .ok clusterTotal =>
                          (trace4, .ok {
                            TotalCost := clusterTotal
                            CPUCost := coreTotal
                            MemCost := ramTotal
                            StorageCost := storageTotal })

/-- A concrete collaborator environment over `F := String`, `T := Unit`,
`D := Unit`: default cluster identifier empty, no local-storage fragment,
every backend query answered with `resp`, time parsing always succeeding.
Used by the concrete evaluations below. -/
def baseEnv (resp : QueryResponse String) : Env String Unit Unit where
  clusterIDEnv := ""
  getLocalStorageQuery := fun _ => .ok ""
  backendInstant := fun _ => .ok resp
  backendRange := fun _ _ _ _ => .ok resp
  parseTime := fun _ => .ok ()
  parseDuration := fun _ => .ok ()
  fmtF := id

theorem insertTotal_lookup_of_some {m : TotalsMap} {d : String} {t : Pairs}
    (h : m.lookup d = some t) (k : String) (p : List String) :
    (insertTotal m k p).lookup d = some t := by
  unfold insertTotal
  cases hk : m.lookup k with
  | some _ => exact h
  | none => rw [List.lookup_append, h]; rfl

theorem insertTotal_lookup_ne {k d : String} (h : k ≠ d) (m : TotalsMap) (p : List String) :
    (insertTotal m k p).lookup d = m.lookup d := by
  unfold insertTotal
  cases hk : m.lookup k with
  | some _ => rfl
  | none =>
      rw [List.lookup_append]
      have h1 : ([(k, [p])] : TotalsMap).lookup d = none := by
        rw [List.lookup_cons, beq_false_of_ne (Ne.symm h)]
        rfl
      rw [h1, Option.or_none]

theorem insertTotal_lookup_self_of_none {m : TotalsMap} {k : String}
    (h : m.lookup k = none) (p : List String) :
    (insertTotal m k p).lookup k = some [p] := by
  unfold insertTotal
  rw [h, List.lookup_append, h, Option.none_or, List.lookup_cons_self]

theorem resultToTotalStep_nilValues {F : Type} (fmtF : F → String) (dcid : String)
    (acc : List LogEvent × TotalsMap) {r : QueryResult F} (h : r.Values = []) :
    resultToTotalStep fmtF dcid acc r = (acc.1 ++ [warnNoValidData], acc.2) := by
  unfold resultToTotalStep
  rw [h]

theorem resultToTotalStep_consValues {F : Type} (fmtF : F → String) (dcid : String)
    (acc : List LogEvent × TotalsMap) {r : QueryResult F} {v : Sample F} {vs : List (Sample F)}
    (h : r.Values = v :: vs) :
    resultToTotalStep fmtF dcid acc r =
      (acc.1, insertTotal acc.2 (effClusterID dcid r) [fmtF v.Timestamp, fmtF v.Value]) := by
  unfold resultToTotalStep
  rw [h]

theorem foldStep_snd_const {F : Type} (fmtF : F → String) (dcid : String)
    (rs : List (QueryResult F)) : ∀ (l l' : List LogEvent) (m : TotalsMap),
    (rs.foldl (resultToTotalStep fmtF dcid) (l, m)).2 =
      (rs.foldl (resultToTotalStep fmtF dcid) (l', m)).2 := by
  induction rs with
  | nil => intro l l' m; rfl
  | cons r rs ih =>
      intro l l' m
      rw [List.foldl_cons, List.foldl_cons]
      cases hv : r.Values with
      | nil =>
          rw [resultToTotalStep_nilValues fmtF dcid (l, m) hv,
            resultToTotalStep_nilValues fmtF dcid (l', m) hv]
          exact ih _ _ _
      | cons v vs =>
          rw [resultToTotalStep_consValues fmtF dcid (l, m) hv,
            resultToTotalStep_consValues fmtF dcid (l', m) hv]
          exact ih _ _ _

theorem foldStep_fst_append {F : Type} (fmtF : F → String) (dcid : String)
    (rs : List (QueryResult F)) : ∀ (l : List LogEvent) (m : TotalsMap),
    (rs.foldl (resultToTotalStep fmtF dcid) (l, m)).1 =
      l ++ (rs.foldl (resultToTotalStep fmtF dcid) ([], m)).1 := by
  induction rs with
  | nil => intro l m; simp
  | cons r rs ih =>
      intro l m
      rw [List.foldl_cons, List.foldl_cons]
      cases hv : r.Values with
      | nil =>
          rw [resultToTotalStep_nilValues fmtF dcid (l, m) hv,
            resultToTotalStep_nilValues fmtF dcid ([], m) hv]
          show (rs.foldl _ (l ++ [warnNoValidData], m)).1 =
            l ++ (rs.foldl _ ([] ++ [warnNoValidData], m)).1
          rw [ih (l ++ [warnNoValidData]) m, List.nil_append, ih [warnNoValidData] m,
            List.append_assoc]
      | cons v vs =>
          rw [resultToTotalStep_consValues fmtF dcid (l, m) hv,
            resultToTotalStep_consValues fmtF dcid ([], m) hv]
          exact ih _ _

theorem fold_lookup_of_some {F : Type} {fmtF : F → String} {dcid d : String} {t : Pairs}
    (rs : List (QueryResult F)) : ∀ (l : List LogEvent) (m : TotalsMap),
    m.lookup d = some t →
    ((rs.foldl (resultToTotalStep fmtF dcid) (l, m)).2).lookup d = some t := by
  induction rs with
  | nil => intro l m h; exact h
  | cons r rs ih =>
      intro l m h
      rw [List.foldl_cons]
      cases hv : r.Values with
      | nil => rw [resultToTotalStep_nilValues fmtF dcid (l, m) hv]; exact ih _ _ h
      | cons v vs =>
          rw [resultToTotalStep_consValues fmtF dcid (l, m) hv]
          exact ih _ _ (insertTotal_lookup_of_some h _ _)

theorem fold_lookup_none_of_skips {F : Type} {fmtF : F → String} {dcid d : String}
    (rs : List (QueryResult F))
    (hrs : ∀ r ∈ rs, effClusterID dcid r ≠ d ∨ r.Values = []) :
    ∀ (l : List LogEvent) (m : TotalsMap), m.lookup d = none →
    ((rs.foldl (resultToTotalStep fmtF dcid) (l, m)).2).lookup d = none := by
  induction rs with
  | nil => intro l m h; exact h
  | cons r rs ih =>
      intro l m h
      rw [List.foldl_cons]
      cases hv : r.Values with
      | nil =>
          rw [resultToTotalStep_nilValues fmtF dcid (l, m) hv]
          exact ih (fun r hr => hrs r (List.mem_cons_of_mem _ hr)) _ _ h
      | cons v vs =>
          have hne : effClusterID dcid r ≠ d := by
            rcases hrs r (List.mem_cons_self r rs) with h' | h'
            · exact h'
            · rw [hv] at h'; exact absurd h' (List.cons_ne_nil _ _)
          rw [resultToTotalStep_consValues fmtF dcid (l, m) hv]
          refine ih (fun r hr => hrs r (List.mem_cons_of_mem _ hr)) _ _ ?_
          rw [insertTotal_lookup_ne hne, h]

/-- C1: in the per-cluster policy `resultToTotal`, when a second non-empty
series maps to an already-seen cluster identifier, the Go source runs
`t = append(t, toAppend)` on a local copy of the map entry and never stores
the result back (cluster.go:95-99), so the entry keeps exactly the first
contributing series' pair.  Evaluating the embedded code on two series for
cluster "A" shows the entry holds one pair, not one pair per contributing
series as the claim (and the spec's "else appended to") requires. -/
theorem claim1_second_series_first_sample_dropped :
    resultToTotal (fun s => s) ""
      (.ok [⟨[("cluster_id", "A")], [⟨"100.000000", "5.000000"⟩]⟩,
            ⟨[("cluster_id", "A")], [⟨"100.000000", "7.000000"⟩]⟩]) =
      .ok ([], [("A", [["100.000000", "5.000000"]])]) ∧
    ([("A", [["100.000000", "5.000000"]])] : TotalsMap).lookup "A" ≠
      some [["100.000000", "5.000000"], ["100.000000", "7.000000"]] :=
  ⟨rfl, by decide⟩

/-- C2 counterexample: `resultToTotals` uses only `results[0]`
(cluster.go:53), so with two returned series the second series' samples are
absent from the output, refuting "every sample of every returned series is
kept". -/
theorem claim2_counterexample :
    resultToTotals (fun s => s)
      (.ok [⟨[("cluster_id", "A")], [⟨"100.000000", "5.000000"⟩]⟩,
            ⟨[("cluster_id", "B")], [⟨"100.000000", "7.000000"⟩, ⟨"200.000000", "8.000000"⟩]⟩]) =
      .ok [["100.000000", "5.000000"]] ∧
    ["100.000000", "7.000000"] ∉ [["100.000000", "5.000000"]] :=
  ⟨rfl, by decide⟩

/-- C2 amended: in the time-series policy (`ClusterCostsOverTime` via
`resultToTotals`), every sample of the FIRST returned series is kept, in the
series' time order, with no per-cluster bucketing, no deduplication and no
resampling; series after the first are ignored. -/
theorem claim2_amended {F : Type} (fmtF : F → String) (result : QueryResult F)
    (rest : List (QueryResult F)) :
    resultToTotals fmtF (.ok (result :: rest)) =
      .ok (result.Values.map fun value => [fmtF value.Timestamp, fmtF value.Value]) := rfl

/-- C7 counterexample: with default identifier "D" and two series both
lacking the `cluster_id` label, the first series creates the "D" entry and
the second series' first sample is silently dropped by the dead append at
cluster.go:96: the output map is exactly `[("D", [["1","2"]])]` and the
second sample appears nowhere, refuting "every series whose cluster_id
label is absent or empty ... its first sample appears in the output map
under the default-cluster key, not dropped". -/
theorem claim7_counterexample :
    resultToTotal (fun s => s) "D"
      (.ok [⟨[], [⟨"1.000000", "2.000000"⟩]⟩,
            ⟨[], [⟨"3.000000", "4.000000"⟩]⟩]) =
      .ok ([], [("D", [["1.000000", "2.000000"]])]) ∧
    ["3.000000", "4.000000"] ∉ [["1.000000", "2.000000"]] :=
  ⟨rfl, by decide⟩

/-- C7 amended: in the per-cluster policy, a series whose `cluster_id`
label is absent or empty is always BUCKETED under the configured default
cluster identifier (cluster.go:77-80) — never under a literal empty-string
key distinct from the default — but only the first series that maps to the
default key contributes a sample: when every earlier series names a
different cluster or has no samples, the first absent/empty-label series'
first sample appears under the default-cluster key, and the entry stays
exactly that one pair no matter what follows, because the dead append at
cluster.go:96 drops the first sample of every later series mapping to the
same key. -/
theorem claim7_amended :
    (∀ {F : Type} (defaultClusterID : String) (r : QueryResult F),
      r.labels.lookup "cluster_id" = none ∨ r.labels.lookup "cluster_id" = some "" →
      effClusterID defaultClusterID r = defaultClusterID) ∧
    (∀ {F : Type} (fmtF : F → String) (defaultClusterID : String)
      (pre : List (QueryResult F)) (labels : List (String × String)) (v : Sample F)
      (vs : List (Sample F)) (post : List (QueryResult F)),
      (∀ s ∈ pre, effClusterID defaultClusterID s ≠ defaultClusterID ∨ s.Values = []) →
      labels.lookup "cluster_id" = none ∨ labels.lookup "cluster_id" = some "" →
      ∃ logs m,
        resultToTotal fmtF defaultClusterID (.ok (pre ++ ⟨labels, v :: vs⟩ :: post)) =
          .ok (logs, m) ∧
        m.lookup defaultClusterID = some [[fmtF v.Timestamp, fmtF v.Value]]) := by
  constructor
  · intro F defaultClusterID r h
    unfold effClusterID QueryResult.GetString
    rcases h with h | h <;> simp [h]
  · intro F fmtF defaultClusterID pre labels v vs post hpre h
    have heff : effClusterID defaultClusterID ⟨labels, v :: vs⟩ = defaultClusterID := by
      unfold effClusterID QueryResult.GetString
      rcases h with h | h <;> simp [h]
    have hlook : List.lookup defaultClusterID
        ((pre ++ ⟨labels, v :: vs⟩ :: post).foldl
          (resultToTotalStep fmtF defaultClusterID) ([], [])).2 =
        some [[fmtF v.Timestamp, fmtF v.Value]] := by
      rw [List.foldl_append, List.foldl_cons,
        resultToTotalStep_consValues fmtF defaultClusterID _ rfl, heff]
      refine fold_lookup_of_some post _ _ ?_
      exact insertTotal_lookup_self_of_none
        (fold_lookup_none_of_skips pre hpre _ _ List.lookup_nil) _
    exact ⟨_, _, rfl, hlook⟩

/-- C8: in the per-cluster policy, a series with zero samples contributes no
entry to the output map and leaves the processing of every other series in
the same result unchanged (the final map is identical to the one produced
without that series); the call still succeeds, and the skip is signalled by
the warning log event `warnNoValidData` (cluster.go:82-87). -/
theorem claim8_zero_sample_series_skipped_with_warning {F : Type} (fmtF : F → String)
    (defaultClusterID : String) (pre post : List (QueryResult F))
    (labels : List (String × String)) :
    ∃ logs logs2 m,
      resultToTotal fmtF defaultClusterID (.ok (pre ++ ⟨labels, []⟩ :: post)) = .ok (logs, m) ∧
      resultToTotal fmtF defaultClusterID (.ok (pre ++ post)) = .ok (logs2, m) ∧
      warnNoValidData ∈ logs := by
  have hL : resultToTotal fmtF defaultClusterID (.ok (pre ++ ⟨labels, []⟩ :: post)) =
      .ok (List.foldl (resultToTotalStep fmtF defaultClusterID)
            (resultToTotalStep fmtF defaultClusterID
              (List.foldl (resultToTotalStep fmtF defaultClusterID) ([], []) pre)
              ⟨labels, []⟩) post) := by
    simp only [resultToTotal, NewQueryResults, List.foldl_append, List.foldl_cons]
  have hR : resultToTotal fmtF defaultClusterID (.ok (pre ++ post)) =
      .ok (List.foldl (resultToTotalStep fmtF defaultClusterID)
            (List.foldl (resultToTotalStep fmtF defaultClusterID) ([], []) pre) post) := by
    simp only [resultToTotal, NewQueryResults, List.foldl_append]
  have hstep : resultToTotalStep fmtF defaultClusterID
      (List.foldl (resultToTotalStep fmtF defaultClusterID) ([], []) pre) ⟨labels, []⟩ =
      ((List.foldl (resultToTotalStep fmtF defaultClusterID) ([], []) pre).1 ++
        [warnNoValidData],
       (List.foldl (resultToTotalStep fmtF defaultClusterID) ([], []) pre).2) := rfl
  have h2 : (List.foldl (resultToTotalStep fmtF defaultClusterID)
        (List.foldl (resultToTotalStep fmtF defaultClusterID) ([], []) pre) post).2 =
      (List.foldl (resultToTotalStep fmtF defaultClusterID)
        (resultToTotalStep fmtF defaultClusterID
          (List.foldl (resultToTotalStep fmtF defaultClusterID) ([], []) pre)
          ⟨labels, []⟩) post).2 := by
    rw [hstep]
    exact foldStep_snd_const fmtF defaultClusterID post _ _ _
  refine ⟨(List.foldl (resultToTotalStep fmtF defaultClusterID)
      (resultToTotalStep fmtF defaultClusterID
        (List.foldl (resultToTotalStep fmtF defaultClusterID) ([], []) pre)
        ⟨labels, []⟩) post).1,
    (List.foldl (resultToTotalStep fmtF defaultClusterID)
      (List.foldl (resultToTotalStep fmtF defaultClusterID) ([], []) pre) post).1,
    (List.foldl (resultToTotalStep fmtF defaultClusterID)
      (resultToTotalStep fmtF defaultClusterID
        (List.foldl (resultToTotalStep fmtF defaultClusterID) ([], []) pre)
        ⟨labels, []⟩) post).2, ?_, ?_, ?_⟩
  · exact hL
  · rw [hR, ← h2]
  · rw [hstep, foldStep_fst_append]
    simp

theorem clusterCostsForAllClusters_trace_head {F T D : Type} (env : Env F T D)
    (windowString offsetInput : String) :
    ∃ rest, (ClusterCostsForAllClusters env windowString offsetInput).1 =
      .localStorage (if offsetInput ≠ "" then "offset " ++ offsetInput else offsetInput) ::
        rest := by
  unfold ClusterCostsForAllClusters
  simp only []
  repeat' split
  all_goals exact ⟨_, rfl⟩

theorem clusterCosts_trace_head {F T D : Type} (env : Env F T D)
    (windowString offsetInput : String) :
    ∃ rest, (ClusterCosts env windowString offsetInput).1 =
      .localStorage (if offsetInput ≠ "" then "offset " ++ offsetInput else offsetInput) ::
        rest := by
  unfold ClusterCosts
  simp only []
  repeat' split
  all_goals exact ⟨_, rfl⟩

theorem clusterCostsOverTime_trace_head {F T D : Type} (env : Env F T D)
    (startString endString windowString offsetInput : String) :
    ∃ rest, (ClusterCostsOverTime env startString endString windowString offsetInput).1 =
      .localStorage offsetInput :: rest := by
  unfold ClusterCostsOverTime
  simp only []
  repeat' split
  all_goals exact ⟨_, rfl⟩

/-- C9: when the start, end or window string of `ClusterCostsOverTime` fails
to parse, the call returns that parse error and performs zero metrics-backend
calls (cluster.go:259-275: the times are parsed before any `QueryRange`).
The cloud-provider lookup is the only collaborator consulted first, and it is
not a backend call. -/
theorem claim9_parse_failure_before_any_backend_call {F T D : Type} (env : Env F T D)
    (startString endString windowString offsetInput lsq : String)
    (hlsq : env.getLocalStorageQuery offsetInput = .ok lsq) :
    (∀ msg, env.parseTime startString = .error msg →
      (ClusterCostsOverTime env startString endString windowString offsetInput).1.filter
          (fun ev => ev.isBackend) = [] ∧
        (ClusterCostsOverTime env startString endString windowString offsetInput).2 =
          .error msg) ∧
    (∀ ts msg, env.parseTime startString = .ok ts → env.parseTime endString = .error msg →
      (ClusterCostsOverTime env startString endString windowString offsetInput).1.filter
          (fun ev => ev.isBackend) = [] ∧
        (ClusterCostsOverTime env startString endString windowString offsetInput).2 =
          .error msg) ∧
    (∀ ts te msg, env.parseTime startString = .ok ts → env.parseTime endString = .ok te →
      env.parseDuration windowString = .error msg →
      (ClusterCostsOverTime env startString endString windowString offsetInput).1.filter
          (fun ev => ev.isBackend) = [] ∧
        (ClusterCostsOverTime env startString endString windowString offsetInput).2 =
          .error msg) := by
  refine ⟨?_, ?_, ?_⟩
  · intro msg h1
    constructor <;> simp [ClusterCostsOverTime, hlsq, h1, CallEvent.isBackend]
  · intro ts msg h1 h2
    constructor <;> simp [ClusterCostsOverTime, hlsq, h1, h2, CallEvent.isBackend]
  · intro ts te msg h1 h2 h3
    constructor <;> simp [ClusterCostsOverTime, hlsq, h1, h2, h3, CallEvent.isBackend]

/-- C9 witness: a concrete environment whose time parser rejects everything;
the call performs zero backend calls and surfaces the parse error. -/
theorem claim9_witness :
    ((baseEnv (.ok [])).getLocalStorageQuery "" =
        (.ok "" : Except String String)) ∧
    ({ baseEnv (.ok []) with
        parseTime := fun s => .error ("cannot parse \x22" ++ s ++ "\x22") }.parseTime "bad" =
      (.error "cannot parse \x22bad\x22" : Except String Unit)) ∧
    ((ClusterCostsOverTime
        { baseEnv (.ok []) with
          parseTime := fun s => .error ("cannot parse \x22" ++ s ++ "\x22") }
        "bad" "2026-01-01T00:00:00.000Z" "1h" "").1.filter (fun ev => ev.isBackend) = [] ∧
      (ClusterCostsOverTime
        { baseEnv (.ok []) with
          parseTime := fun s => .error ("cannot parse \x22" ++ s ++ "\x22") }
        "bad" "2026-01-01T00:00:00.000Z" "1h" "").2 =
        .error "cannot parse \x22bad\x22") :=
  ⟨rfl, rfl,
    (claim9_parse_failure_before_any_backend_call
      { baseEnv (.ok []) with
        parseTime := fun s => .error ("cannot parse \x22" ++ s ++ "\x22") }
      "bad" "2026-01-01T00:00:00.000Z" "1h" "" "" rfl).1 _ rfl⟩

/-- C10: for a non-empty offset, the two snapshot entry points rewrite the
offset to "offset o" before handing it to the cloud provider's
`GetLocalStorageQuery` (cluster.go:108-112, 182-186), while
`ClusterCostsOverTime` calls the provider with the raw offset
(cluster.go:251) and rewrites only afterwards (cluster.go:278-280), so the
three entry points pass the collaborator different argument strings. -/
theorem claim10_offset_rewritten_for_snapshots_raw_for_range {F T D : Type}
    (env1 env2 env3 : Env F T D) (windowString startString endString o : String)
    (h : o ≠ "") :
    (∃ rest, (ClusterCostsForAllClusters env1 windowString o).1 =
        .localStorage ("offset " ++ o) :: rest) ∧
    (∃ rest, (ClusterCosts env2 windowString o).1 =
        .localStorage ("offset " ++ o) :: rest) ∧
    (∃ rest, (ClusterCostsOverTime env3 startString endString windowString o).1 =
        .localStorage o :: rest) ∧
    "offset " ++ o ≠ o := by
  refine ⟨?_, ?_, clusterCostsOverTime_trace_head env3 startString endString windowString o, ?_⟩
  · have := clusterCostsForAllClusters_trace_head env1 windowString o
    rwa [if_pos h] at this
  · have := clusterCosts_trace_head env2 windowString o
    rwa [if_pos h] at this
  · intro heq
    have hlen : ("offset " ++ o).data.length = o.data.length := by rw [heq]
    rw [show ("offset " ++ o).data = "offset ".data ++ o.data from rfl,
      List.length_append, show "offset ".data.length = 7 from rfl] at hlen
    omega

/-- C10 witness at offset "1d". -/
theorem claim10_witness :
    (("1d" : String) ≠ "") ∧
    ((∃ rest, (ClusterCostsForAllClusters (baseEnv (.ok [])) "1d" "1d").1 =
        .localStorage ("offset " ++ "1d") :: rest) ∧
    (∃ rest, (ClusterCosts (baseEnv (.ok [])) "1d" "1d").1 =
        .localStorage ("offset " ++ "1d") :: rest) ∧
    (∃ rest, (ClusterCostsOverTime (baseEnv (.ok []))
        "2026-01-01T00:00:00.000Z" "2026-01-02T00:00:00.000Z" "1d" "1d").1 =
        .localStorage "1d" :: rest) ∧
    "offset " ++ "1d" ≠ "1d") :=
  ⟨by decide,
    claim10_offset_rewritten_for_snapshots_raw_for_range
      (baseEnv (.ok [])) (baseEnv (.ok [])) (baseEnv (.ok []))
      "1d" "2026-01-01T00:00:00.000Z" "2026-01-02T00:00:00.000Z" "1d" (by decide)⟩

/-- C7 witness: the label-less series sits behind a series naming cluster
"B" and is followed by another label-less series; its first sample appears
under default key "D", and the entry is exactly that one pair. -/
theorem claim7_amended_witness :
    (([] : List (String × String)).lookup "cluster_id" = none ∨
      ([] : List (String × String)).lookup "cluster_id" = some "") ∧
    (∀ s ∈ [(⟨[("cluster_id", "B")], [⟨"9.000000", "9.000000"⟩]⟩ : QueryResult String)],
      effClusterID "D" s ≠ "D" ∨ s.Values = []) ∧
    (effClusterID "D" (⟨[], [⟨"1.000000", "2.000000"⟩]⟩ : QueryResult String) = "D") ∧
    (∃ logs m,
      resultToTotal (fun s => s) "D"
          (.ok [⟨[("cluster_id", "B")], [⟨"9.000000", "9.000000"⟩]⟩,
                ⟨[], [⟨"1.000000", "2.000000"⟩]⟩,
                ⟨[], [⟨"3.000000", "4.000000"⟩]⟩]) = .ok (logs, m) ∧
      m.lookup "D" = some [["1.000000", "2.000000"]]) :=
  ⟨Or.inl rfl, by decide,
    claim7_amended.1 "D" (⟨[], [⟨"1.000000", "2.000000"⟩]⟩ : QueryResult String)
      (Or.inl rfl),
    claim7_amended.2 (fun s => s) "D"
      [⟨[("cluster_id", "B")], [⟨"9.000000", "9.000000"⟩]⟩]
      [] ⟨"1.000000", "2.000000"⟩ [] [⟨[], [⟨"3.000000", "4.000000"⟩]⟩]
      (by decide) (Or.inl rfl)⟩

/-- C6 counterexample: in the concrete call `ClusterCosts _ "2d" "1d"` the
fourth backend query is the total query, which is built from `queryTotal`'s
hard-coded `[1h]` ranges (cluster.go:29-33, 197): it contains neither the
literal window string "2d" nor the rewritten offset "offset 1d", refuting
the claim for the total query. -/
theorem claim6_counterexample :
    ((ClusterCosts (baseEnv (.ok [])) "2d" "1d").1)[4]? =
      some (.instant (qTotalOf "")) ∧
    ¬ ("2d".data <:+: (qTotalOf "").data) ∧
    ¬ (("offset " ++ "1d").data <:+: (qTotalOf "").data) :=
  ⟨rfl, by decide, by decide⟩

theorem stringAppendEmpty (s : String) : s ++ "" = s :=
  congrArg String.mk (List.append_nil s.data)

/-- C6 amended: the cores, memory and storage queries each contain the
literal window string at every window site and the rewritten offset
"offset o" exactly once at each offset substitution site (three sites for
cores, two for memory, two for storage), as witnessed by the decomposition
of each produced query into the template's literal fragments; the total
query substitutes only the local-storage fragment and uses hard-coded `[1h]`
ranges, so it has no window or offset substitution site. -/
theorem claim6_amended (w o lsq : String) :
    (qCoresOf w ("offset " ++ o) = "sum(\n\t\tavg(avg_over_time(kube_node_status_capacity_cpu_cores[" ++ (w ++ ("] " ++ (("offset " ++ o) ++ (")) by (node, cluster_id) * avg(avg_over_time(node_cpu_hourly_cost[" ++ (w ++ ("] " ++ (("offset " ++ o) ++ (")) by (node, cluster_id) * 730 +\n\t\tavg(avg_over_time(node_gpu_hourly_cost[" ++ (w ++ ("] " ++ (("offset " ++ o) ++ ")) by (node, cluster_id) * 730\n\t  ) by (cluster_id)")))))))))))) ∧
    (qRAMOf w ("offset " ++ o) = "sum(\n\t\tavg(avg_over_time(kube_node_status_capacity_memory_bytes[" ++ (w ++ ("] " ++ (("offset " ++ o) ++ (")) by (node, cluster_id) / 1024 / 1024 / 1024 * avg(avg_over_time(node_ram_hourly_cost[" ++ (w ++ ("] " ++ (("offset " ++ o) ++ ")) by (node, cluster_id) * 730\n\t  ) by (cluster_id)")))))))) ∧
    (qStorageOf w ("offset " ++ o) lsq = "sum(\n\t\tavg(avg_over_time(pv_hourly_cost[" ++ (w ++ ("] " ++ (("offset " ++ o) ++ (")) by (persistentvolume, cluster_id) * 730 \n\t\t* avg(avg_over_time(kube_persistentvolume_capacity_bytes[" ++ (w ++ ("] " ++ (("offset " ++ o) ++ (")) by (persistentvolume, cluster_id) / 1024 / 1024 / 1024\n\t  ) by (cluster_id) " ++ lsq))))))))) ∧
    (qTotalOf lsq = "sum(avg(node_total_hourly_cost) by (node, cluster_id)) * 730 +\n\t  sum(\n\t\tavg(avg_over_time(pv_hourly_cost[1h])) by (persistentvolume, cluster_id) * 730 \n\t\t* avg(avg_over_time(kube_persistentvolume_capacity_bytes[1h])) by (persistentvolume, cluster_id) / 1024 / 1024 / 1024\n\t  ) by (cluster_id) " ++ lsq) := by
  refine ⟨rfl, rfl, ?_, ?_⟩
  · conv_rhs => rw [← stringAppendEmpty lsq]
    rfl
  · conv_rhs => rw [← stringAppendEmpty lsq]
    rfl

/-- C3 counterexample: the single-total policy does NOT ignore the
label-reported identifier.  With default cluster identifier "" and a single
series labelled cluster_id="A" carrying one sample, `ClusterCosts` buckets
the sample under "A" via `resultToTotal` and then reads the map at the
default identifier (cluster.go:218-245), so every `Totals` field comes out
empty instead of holding the first sample of the first series. -/
theorem claim3_counterexample :
    (ClusterCosts (baseEnv (.ok [⟨[("cluster_id", "A")], [⟨"100.000000", "5.000000"⟩]⟩]))
        "1d" "").2 =
      .ok ⟨[], [], [], []⟩ ∧
    (Totals.mk [] [] [] []).CPUCost ≠ [["100.000000", "5.000000"]] :=
  ⟨rfl, by decide⟩

/-- C3 amended: for each dimension, the `Totals` field returned by
`ClusterCosts` is the per-cluster map entry for the process's default
cluster identifier: when the response contains a series whose `cluster_id`
label is empty/absent or equal to the default identifier (and every earlier
series either names a different cluster or has no samples), the field is a
one-element pair list holding the first sample of the FIRST such series;
when no series maps to the default identifier, the field is empty rather
than holding the first series' sample. -/
theorem claim3_amended :
    (∀ {F T D : Type} (env : Env F T D) (windowString o lsq : String)
      (pre post : List (QueryResult F)) (r : QueryResult F) (v : Sample F)
      (vs : List (Sample F)),
      env.getLocalStorageQuery (if o ≠ "" then "offset " ++ o else o) = .ok lsq →
      (∀ q, env.backendInstant q = .ok (.ok (pre ++ r :: post))) →
      (∀ s ∈ pre, effClusterID env.clusterIDEnv s ≠ env.clusterIDEnv ∨ s.Values = []) →
      effClusterID env.clusterIDEnv r = env.clusterIDEnv →
      r.Values = v :: vs →
      (ClusterCosts env windowString o).2 =
        .ok ⟨[[env.fmtF v.Timestamp, env.fmtF v.Value]],
             [[env.fmtF v.Timestamp, env.fmtF v.Value]],
             [[env.fmtF v.Timestamp, env.fmtF v.Value]],
             [[env.fmtF v.Timestamp, env.fmtF v.Value]]⟩) ∧
    (∀ {F T D : Type} (env : Env F T D) (windowString o lsq : String)
      (rs : List (QueryResult F)),
      env.getLocalStorageQuery (if o ≠ "" then "offset " ++ o else o) = .ok lsq →
      (∀ q, env.backendInstant q = .ok (.ok rs)) →
      (∀ s ∈ rs, effClusterID env.clusterIDEnv s ≠ env.clusterIDEnv ∨ s.Values = []) →
      (ClusterCosts env windowString o).2 = .ok ⟨[], [], [], []⟩) := by
  constructor
  · intro F T D env windowString o lsq pre post r v vs hlsq hq hpre hr hv
    have hlook : List.lookup env.clusterIDEnv
        ((pre ++ r :: post).foldl (resultToTotalStep env.fmtF env.clusterIDEnv) ([], [])).2 =
        some [[env.fmtF v.Timestamp, env.fmtF v.Value]] := by
      rw [List.foldl_append, List.foldl_cons,
        resultToTotalStep_consValues env.fmtF env.clusterIDEnv _ hv, hr]
      refine fold_lookup_of_some post _ _ ?_
      exact insertTotal_lookup_self_of_none
        (fold_lookup_none_of_skips pre hpre _ _ List.lookup_nil) _
    have hrt : resultToTotal env.fmtF env.clusterIDEnv (.ok (pre ++ r :: post)) =
        .ok (((pre ++ r :: post).foldl (resultToTotalStep env.fmtF env.clusterIDEnv)
              ([], [])).1,
             ((pre ++ r :: post).foldl (resultToTotalStep env.fmtF env.clusterIDEnv)
              ([], [])).2) := rfl
    simp only [ClusterCosts, Query, hlsq, hq, hrt, hlook, Option.getD_some]
  · intro F T D env windowString o lsq rs hlsq hq hrs
    have hlook : List.lookup env.clusterIDEnv
        (rs.foldl (resultToTotalStep env.fmtF env.clusterIDEnv) ([], [])).2 = none :=
      fold_lookup_none_of_skips rs hrs _ _ List.lookup_nil
    have hrt : resultToTotal env.fmtF env.clusterIDEnv (.ok rs) =
        .ok ((rs.foldl (resultToTotalStep env.fmtF env.clusterIDEnv) ([], [])).1,
             (rs.foldl (resultToTotalStep env.fmtF env.clusterIDEnv) ([], [])).2) := rfl
    simp only [ClusterCosts, Query, hlsq, hq, hrt, hlook, Option.getD_none]

/-- C3 witness: default identifier "", one series labelled "B" first, then
an unlabelled series whose first sample lands in every dimension field;
and, for the second part, a response whose only series names cluster "B". -/
theorem claim3_amended_witness :
    ((baseEnv (.ok [⟨[("cluster_id", "B")], [⟨"1.000000", "2.000000"⟩]⟩,
        ⟨[], [⟨"100.000000", "5.000000"⟩]⟩])).getLocalStorageQuery "" =
      (.ok "" : Except String String)) ∧
    ((ClusterCosts (baseEnv (.ok [⟨[("cluster_id", "B")], [⟨"1.000000", "2.000000"⟩]⟩,
        ⟨[], [⟨"100.000000", "5.000000"⟩]⟩])) "1d" "").2 =
      .ok ⟨[["100.000000", "5.000000"]], [["100.000000", "5.000000"]],
           [["100.000000", "5.000000"]], [["100.000000", "5.000000"]]⟩) ∧
    ((ClusterCosts (baseEnv (.ok [⟨[("cluster_id", "B")], [⟨"1.000000", "2.000000"⟩]⟩]))
        "1d" "").2 = .ok ⟨[], [], [], []⟩) :=
  ⟨rfl,
    claim3_amended.1 (baseEnv (.ok [⟨[("cluster_id", "B")], [⟨"1.000000", "2.000000"⟩]⟩,
        ⟨[], [⟨"100.000000", "5.000000"⟩]⟩])) "1d" "" ""
      [⟨[("cluster_id", "B")], [⟨"1.000000", "2.000000"⟩]⟩] []
      ⟨[], [⟨"100.000000", "5.000000"⟩]⟩ ⟨"100.000000", "5.000000"⟩ []
      rfl (fun _ => rfl) (by decide) (by decide) rfl,
    claim3_amended.2 (baseEnv (.ok [⟨[("cluster_id", "B")], [⟨"1.000000", "2.000000"⟩]⟩]))
      "1d" "" "" [⟨[("cluster_id", "B")], [⟨"1.000000", "2.000000"⟩]⟩]
      rfl (fun _ => rfl) (by decide)⟩

/-- C4 counterexample: with every query answering zero series,
`ClusterCosts` does NOT fail: `resultToTotal` returns an empty map without
error (its loop simply never runs, cluster.go:75-102), the default-cluster
lookups all miss, and the call returns ok with all-empty `Totals` fields.
The "Not enough data available in the selected time range" error lives only
in `resultToTotals` (cluster.go:49-51), which `ClusterCosts` never calls. -/
theorem claim4_counterexample :
    (ClusterCosts (baseEnv (.ok [])) "1d" "").2 = .ok ⟨[], [], [], []⟩ := rfl

/-- C4 amended: when the backend returns zero usable series for a dimension,
(a) the snapshot call `ClusterCosts` does not fail: it returns a `Totals`
whose fields are empty lists; (b) the per-cluster call
`ClusterCostsForAllClusters` does not fail and simply omits that
cluster-dimension (here: cores empty, memory carrying cluster c, so the
output holds cluster c with an empty `CPUCost`); (c) it is the time-series
call `ClusterCostsOverTime`, via `resultToTotals`, that fails fatally with
the no-data error. -/
theorem claim4_amended :
    (∀ {F T D : Type} (env : Env F T D) (windowString o lsq : String),
      env.getLocalStorageQuery (if o ≠ "" then "offset " ++ o else o) = .ok lsq →
      (∀ q, env.backendInstant q = .ok (.ok [])) →
      (ClusterCosts env windowString o).2 = .ok ⟨[], [], [], []⟩) ∧
    (∀ {F T D : Type} (env : Env F T D) (windowString o lsq c : String) (v : Sample F)
      (vs : List (Sample F)),
      env.getLocalStorageQuery (if o ≠ "" then "offset " ++ o else o) = .ok lsq →
      env.backendInstant (qCoresOf windowString (if o ≠ "" then "offset " ++ o else o)) =
        .ok (.ok []) →
      env.backendInstant (qRAMOf windowString (if o ≠ "" then "offset " ++ o else o)) =
        .ok (.ok [⟨[("cluster_id", c)], v :: vs⟩]) →
      env.backendInstant (qStorageOf windowString (if o ≠ "" then "offset " ++ o else o)
          (if lsq ≠ "" then "+ " ++ lsq else lsq)) = .ok (.ok []) →
      c ≠ "" →
      (ClusterCostsForAllClusters env windowString o).2 =
        .ok [(c, ⟨[], [], [[env.fmtF v.Timestamp, env.fmtF v.Value]], []⟩)]) ∧
    (∀ {F T D : Type} (env : Env F T D) (startString endString windowString o lsq : String)
      (ts te : T) (dw : D),
      env.getLocalStorageQuery o = .ok lsq →
      env.parseTime startString = .ok ts →
      env.parseTime endString = .ok te →
      env.parseDuration windowString = .ok dw →
      (∀ q t1 t2 d, env.backendRange q t1 t2 d = .ok (.ok [])) →
      (ClusterCostsOverTime env startString endString windowString o).2 =
        .error "Not enough data available in the selected time range") := by
  refine ⟨?_, ?_, ?_⟩
  · intro F T D env windowString o lsq hlsq hq
    have hrt : resultToTotal env.fmtF env.clusterIDEnv
        ((.ok [] : QueryResponse F)) = .ok ([], []) := rfl
    simp only [ClusterCosts, Query, hlsq, hq, hrt, List.lookup_nil, Option.getD_none]
  · intro F T D env windowString o lsq c v vs hlsq hcores hram hstor hc
    have heff : effClusterID env.clusterIDEnv ⟨[("cluster_id", c)], v :: vs⟩ = c := by
      unfold effClusterID QueryResult.GetString
      simp [List.lookup_cons, hc]
    have hrt1 : resultToTotal env.fmtF env.clusterIDEnv ((.ok [] : QueryResponse F)) =
        .ok ([], []) := rfl
    have hrt2 : resultToTotal env.fmtF env.clusterIDEnv
        (.ok [⟨[("cluster_id", c)], v :: vs⟩]) =
        .ok ([], [(c, [[env.fmtF v.Timestamp, env.fmtF v.Value]])]) := by
      simp only [resultToTotal, NewQueryResults, List.foldl_cons, List.foldl_nil]
      rw [resultToTotalStep_consValues env.fmtF env.clusterIDEnv ([], []) rfl, heff]
      rfl
    simp only [ClusterCostsForAllClusters, Query, hlsq, hcores, hram, hstor, hrt1, hrt2,
      applyDim, List.foldl_cons, List.foldl_nil, List.lookup_nil, Option.getD_none, mapSet]
  · intro F T D env startString endString windowString o lsq ts te dw hlsq hts hte hd hrange
    have hrt : resultToTotals env.fmtF ((.ok [] : QueryResponse F)) =
        .error "Not enough data available in the selected time range" := rfl
    simp only [ClusterCostsOverTime, QueryRange, hlsq, hts, hte, hd, hrange, hrt]

/-- C4 witness: part (a) at an all-empty backend; part (b) with an empty
cores dimension and a memory dimension naming cluster "B"; part (c) at an
all-empty range backend. -/
theorem claim4_amended_witness :
    ((ClusterCosts (baseEnv (.ok [])) "1d" "").2 = .ok ⟨[], [], [], []⟩) ∧
    ((ClusterCostsForAllClusters
        { baseEnv (.ok []) with
          backendInstant := fun q =>
            if q = qRAMOf "1d" "" then
              .ok (.ok [⟨[("cluster_id", "B")], [⟨"1.000000", "2.000000"⟩]⟩])
            else .ok (.ok []) } "1d" "").2 =
      .ok [("B", ⟨[], [], [["1.000000", "2.000000"]], []⟩)]) ∧
    ((ClusterCostsOverTime (baseEnv (.ok []))
        "2026-01-01T00:00:00.000Z" "2026-01-02T00:00:00.000Z" "1h" "").2 =
      .error "Not enough data available in the selected time range") :=
  ⟨claim4_amended.1 (baseEnv (.ok [])) "1d" "" "" rfl (fun _ => rfl),
   claim4_amended.2.1
      { baseEnv (.ok []) with
        backendInstant := fun q =>
          if q = qRAMOf "1d" "" then
            .ok (.ok [⟨[("cluster_id", "B")], [⟨"1.000000", "2.000000"⟩]⟩])
          else .ok (.ok []) } "1d" "" "" "B" ⟨"1.000000", "2.000000"⟩ []
      rfl rfl rfl rfl (by decide),
   claim4_amended.2.2 (baseEnv (.ok []))
      "2026-01-01T00:00:00.000Z" "2026-01-02T00:00:00.000Z" "1h" "" "" () () ()
      rfl rfl rfl rfl (fun _ _ _ _ => rfl)⟩

/-- C5 counterexample: a result-parsing failure inside `ClusterCosts` is
propagated bare (`return nil, err`, cluster.go:218-236): the returned error
is exactly the parser's message and does not contain the offending query
text, refuting "an error that wraps both the underlying cause and the
offending query text" for every call. -/
theorem claim5_counterexample :
    (ClusterCosts (baseEnv (.malformed "unsupported result format")) "1d" "").2 =
      .error "unsupported result format" ∧
    ¬ ((qCoresOf "1d" "").data <:+: "unsupported result format".data) :=
  ⟨rfl, by decide⟩

/-- C5 amended: any dimension's query-execution or result-parsing failure
aborts the whole call, and no partial result exists (the return is either
one error or one complete value).  `ClusterCostsForAllClusters` re-wraps
both execution errors and parse errors with the offending query text
(cluster.go:124-173); execution errors reaching `ClusterCosts` still carry
the query text only because the executor adapter wrapped it (spec §4.3);
but a parse failure in `ClusterCosts` (and likewise in
`ClusterCostsOverTime`) surfaces the bare parse error with no query text
attached (cluster.go:218-236, 306-324). -/
theorem claim5_amended :
    (∀ {F T D : Type} (env : Env F T D) (windowString o lsq e : String),
      env.getLocalStorageQuery (if o ≠ "" then "offset " ++ o else o) = .ok lsq →
      env.backendInstant (qCoresOf windowString (if o ≠ "" then "offset " ++ o else o)) =
        .error e →
      (ClusterCostsForAllClusters env windowString o).2 =
        .error ("Error for query " ++
          qCoresOf windowString (if o ≠ "" then "offset " ++ o else o) ++ ": " ++
          ("ExecutionError for query " ++
            qCoresOf windowString (if o ≠ "" then "offset " ++ o else o) ++ ": " ++ e))) ∧
    (∀ {F T D : Type} (env : Env F T D) (windowString o lsq msg : String)
      (r2 r3 : QueryResponse F),
      env.getLocalStorageQuery (if o ≠ "" then "offset " ++ o else o) = .ok lsq →
      env.backendInstant (qCoresOf windowString (if o ≠ "" then "offset " ++ o else o)) =
        .ok (.malformed msg) →
      env.backendInstant (qRAMOf windowString (if o ≠ "" then "offset " ++ o else o)) =
        .ok r2 →
      env.backendInstant (qStorageOf windowString (if o ≠ "" then "offset " ++ o else o)
          (if lsq ≠ "" then "+ " ++ lsq else lsq)) = .ok r3 →
      (ClusterCostsForAllClusters env windowString o).2 =
        .error ("Error for query " ++
          qCoresOf windowString (if o ≠ "" then "offset " ++ o else o) ++ ": " ++ msg)) ∧
    (∀ {F T D : Type} (env : Env F T D) (windowString o lsq e : String),
      env.getLocalStorageQuery (if o ≠ "" then "offset " ++ o else o) = .ok lsq →
      env.backendInstant (qCoresOf windowString (if o ≠ "" then "offset " ++ o else o)) =
        .error e →
      (ClusterCosts env windowString o).2 =
        .error ("ExecutionError for query " ++
          qCoresOf windowString (if o ≠ "" then "offset " ++ o else o) ++ ": " ++ e)) ∧
    (∀ {F T D : Type} (env : Env F T D) (windowString o lsq msg : String),
      env.getLocalStorageQuery (if o ≠ "" then "offset " ++ o else o) = .ok lsq →
      (∀ q, env.backendInstant q = .ok (.malformed msg)) →
      (ClusterCosts env windowString o).2 = .error msg) ∧
    (∀ {F T D : Type} (env : Env F T D) (startString endString windowString o lsq msg : String)
      (ts te : T) (dw : D),
      env.getLocalStorageQuery o = .ok lsq →
      env.parseTime startString = .ok ts →
      env.parseTime endString = .ok te →
      env.parseDuration windowString = .ok dw →
      (∀ q t1 t2 d, env.backendRange q t1 t2 d = .ok (.malformed msg)) →
      (ClusterCostsOverTime env startString endString windowString o).2 = .error msg) := by
  refine ⟨?_, ?_, ?_, ?_, ?_⟩
  · intro F T D env windowString o lsq e hlsq hcores
    simp only [ClusterCostsForAllClusters, Query, hlsq, hcores]
  · intro F T D env windowString o lsq msg r2 r3 hlsq hcores hram hstor
    have hrt : resultToTotal env.fmtF env.clusterIDEnv
        ((.malformed msg : QueryResponse F)) = .error msg := rfl
    simp only [ClusterCostsForAllClusters, Query, hlsq, hcores, hram, hstor, hrt]
  · intro F T D env windowString o lsq e hlsq hcores
    simp only [ClusterCosts, Query, hlsq, hcores]
  · intro F T D env windowString o lsq msg hlsq hq
    have hrt : resultToTotal env.fmtF env.clusterIDEnv
        ((.malformed msg : QueryResponse F)) = .error msg := rfl
    simp only [ClusterCosts, Query, hlsq, hq, hrt]
  · intro F T D env startString endString windowString o lsq msg ts te dw
      hlsq hts hte hd hrange
    have hrt : resultToTotals env.fmtF ((.malformed msg : QueryResponse F)) =
        .error msg := rfl
    simp only [ClusterCostsOverTime, QueryRange, hlsq, hts, hte, hd, hrange, hrt]

/-- C5 witness: each of the five failure scenarios at a concrete
environment. -/
theorem claim5_amended_witness :
    ((ClusterCostsForAllClusters
        { baseEnv (.ok []) with backendInstant := fun _ => .error "boom" } "1d" "").2 =
      .error ("Error for query " ++ qCoresOf "1d" "" ++ ": " ++
        ("ExecutionError for query " ++ qCoresOf "1d" "" ++ ": " ++ "boom"))) ∧
    ((ClusterCostsForAllClusters (baseEnv (.malformed "bad payload")) "1d" "").2 =
      .error ("Error for query " ++ qCoresOf "1d" "" ++ ": " ++ "bad payload")) ∧
    ((ClusterCosts
        { baseEnv (.ok []) with backendInstant := fun _ => .error "boom" } "1d" "").2 =
      .error ("ExecutionError for query " ++ qCoresOf "1d" "" ++ ": " ++ "boom")) ∧
    ((ClusterCosts (baseEnv (.malformed "bad payload")) "1d" "").2 =
      .error "bad payload") ∧
    ((ClusterCostsOverTime (baseEnv (.malformed "bad payload"))
        "2026-01-01T00:00:00.000Z" "2026-01-02T00:00:00.000Z" "1h" "").2 =
      .error "bad payload") :=
  ⟨claim5_amended.1
      { baseEnv (.ok []) with backendInstant := fun _ => .error "boom" }
      "1d" "" "" "boom" rfl rfl,
   claim5_amended.2.1 (baseEnv (.malformed "bad payload")) "1d" "" "" "bad payload"
      (.malformed "bad payload") (.malformed "bad payload") rfl rfl rfl rfl,
   claim5_amended.2.2.1
      { baseEnv (.ok []) with backendInstant := fun _ => .error "boom" }
      "1d" "" "" "boom" rfl rfl,
   claim5_amended.2.2.2.1 (baseEnv (.malformed "bad payload")) "1d" "" "" "bad payload"
      rfl (fun _ => rfl),
   claim5_amended.2.2.2.2 (baseEnv (.malformed "bad payload"))
      "2026-01-01T00:00:00.000Z" "2026-01-02T00:00:00.000Z" "1h" "" "" "bad payload"
      () () () rfl rfl rfl rfl (fun _ _ _ _ => rfl)⟩

end CostModel
